import Mathlib

/-!
Shallow embedding of `cf-ddns.py`, a Cloudflare dynamic-DNS updater.

The program's effects (HTTP calls to the provider and log lines) are made
explicit as an `Event` trace; provider responses and environment variables
are passed in as parameters, so each embedded function is a pure function
from its inputs and the provider's answers to its result and its trace.
-/

namespace CfDdns

/-- Severity levels used by the program's logger. -/
inductive LogLevel where
  | debug
  | info
  | error
deriving DecidableEq, Repr

/-- The JSON payload `data` built in `set_record`
(`data = dict with name, type, content, proxied`, plus `id` added only on the
update path). -/
structure RecordData where
  name : String
  type : String
  content : String
  proxied : Bool
  id : Option String
deriving DecidableEq, Repr

/-- One HTTP request issued through `Cloudflare._call_api`: a GET with query
parameters, or a write (POST / PUT) carrying a record payload. -/
inductive ApiCall where
  | get : String → List (String × String) → ApiCall
  | post : String → RecordData → ApiCall
  | put : String → RecordData → ApiCall
deriving DecidableEq, Repr

/-- Whether an API call is a provider write (POST or PUT). -/
def ApiCall.isWrite : ApiCall → Bool
  | .post _ _ => true
  | .put _ _ => true
  | .get _ _ => false

/-- An observable effect of the program: an API call or a log line. -/
inductive Event where
  | call : ApiCall → Event
  | log : LogLevel → String → Event
deriving DecidableEq, Repr

/-- The provider write calls occurring in a trace. -/
def writeCalls (es : List Event) : List ApiCall :=
  es.filterMap fun e =>
    match e with
    | .call c => if c.isWrite then some c else none
    | .log _ _ => none

/-- How Python renders a `bool` with `%s` formatting. -/
def pyBool : Bool → String
  | true => "True"
  | false => "False"

/-- Python's `c in s` membership test on a string, by characters. -/
def pyContains (s : String) (c : Char) : Bool :=
  s.data.contains c

/-- Character-list worker for `pySplit`: cut at every separator, keeping
empty pieces, as Python's `str.split(sep)` does. -/
def pySplitAux (sep : Char) : List Char → List Char → List (List Char)
  | [], cur => [cur.reverse]
  | c :: rest, cur =>
    if c = sep then cur.reverse :: pySplitAux sep rest []
    else pySplitAux sep rest (c :: cur)

/-- Python's `s.split(sep)` for a one-character separator, as used in
`args.name.split('.')`. -/
def pySplit (s : String) (sep : Char) : List String :=
  (pySplitAux sep s.data []).map fun cs => ⟨cs⟩

/-- Python's `s.strip()`: drop leading and trailing whitespace, as used on
the echo endpoints' response bodies. -/
def pyStrip (s : String) : String :=
  ⟨((s.data.dropWhile Char.isWhitespace).reverse.dropWhile Char.isWhitespace).reverse⟩

/-- A JSON field that can be missing from the object, explicitly `null`, or
present with a value; used to model the presence check `'result' in d and
d['result']`. -/
inductive JField (α : Type) where
  | missing : JField α
  | null : JField α
  | value : α → JField α
deriving DecidableEq, Repr

/-- A provider response envelope whose `result` field holds an array (or is
null / missing). -/
structure ListResponse (α : Type) where
  result : JField (List α)
deriving DecidableEq, Repr

/-- The fields of a DNS record JSON object that `set_record` reads:
`rec['id']`, `rec['content']`, `rec['proxied']`. -/
structure DNSRec where
  id : String
  content : String
  proxied : Bool
deriving DecidableEq, Repr

/-- A zone JSON object; `_get_zone_id` reads only its `id`. -/
structure ZoneRec where
  id : String
deriving DecidableEq, Repr

/-- The branch taken by `set_record`, in the vocabulary of the design
(NoOp / Created / Updated / Rejected); the Python function itself returns
`None`, the action labels which of its four branches ran. -/
inductive Action where
  | noop
  | created
  | updated
  | rejected
deriving DecidableEq, Repr

/-- Loop of glibc `inet_pton4` (the strict dotted-quad parser behind
`socket.inet_pton(socket.AF_INET, ·)`): `cur` is the octet being read,
`sawDigit` whether the current octet has a digit yet, `octets` how many
octets have been started, `acc` the completed octets. Rejects leading
zeros, values above 255, and anything but exactly four dot-separated
decimal octets. -/
def pton4Loop : List Char → Nat → Bool → Nat → List Nat → Option (List Nat)
  | [], cur, _, octets, acc =>
    if octets < 4 then none else some (acc ++ [cur])
  | c :: rest, cur, sawDigit, octets, acc =>
    if c.isDigit then
      let d := c.toNat - 48
      let nv := cur * 10 + d
      if sawDigit = true ∧ cur = 0 then none
      else if nv > 255 then none
      else if sawDigit = false then
        if octets + 1 > 4 then none
        else pton4Loop rest nv true (octets + 1) acc
      else pton4Loop rest nv true octets acc
    else if c = '.' ∧ sawDigit = true then
      if octets = 4 then none
      else pton4Loop rest 0 false octets (acc ++ [cur])
    else none

/-- Model of `socket.inet_pton(socket.AF_INET, s)`: the four octets on
success, `none` on failure (where the C call fails and Python raises
`socket.error`, caught by `_is_ipv4`). -/
def inet_pton4 (s : String) : Option (List Nat) :=
  pton4Loop s.data 0 false 0 []

/-- Value of a hexadecimal digit, or `none` (after `tolower`, as in glibc
`inet_pton6`). -/
def hexVal (c : Char) : Option Nat :=
  let c := c.toLower
  if '0' ≤ c ∧ c ≤ '9' then some (c.toNat - 48)
  else if 'a' ≤ c ∧ c ≤ 'f' then some (c.toNat - 87)
  else none

/-- End of glibc `inet_pton6`: optionally expand the `::` marker (recorded as
a group index `colonp`) with zero groups so that exactly eight 16-bit groups
result. -/
def pton6End (gs : List Nat) (colonp : Option Nat) : Option (List Nat) :=
  match colonp with
  | some cp =>
    if gs.length = 8 then none
    else some (gs.take cp ++ List.replicate (8 - gs.length) 0 ++ gs.drop cp)
  | none => if gs.length = 8 then some gs else none

/-- Loop of glibc `inet_pton6` (behind `socket.inet_pton(socket.AF_INET6, ·)`):
`curtok` is the suffix starting at the current token (for the embedded-IPv4
case), `val` the group being read, `sawX` whether it has a hex digit yet,
`groups` the completed 16-bit groups, `colonp` the group index of a `::`. -/
def pton6Loop : List Char → List Char → Nat → Bool → List Nat → Option Nat → Option (List Nat)
  | [], _, val, sawX, groups, colonp =>
    if sawX = true then
      if groups.length ≥ 8 then none
      else pton6End (groups ++ [val]) colonp
    else pton6End groups colonp
  | c :: rest, curtok, val, sawX, groups, colonp =>
    match hexVal c with
    | some d =>
      let nv := val * 16 + d
      if nv > 65535 then none
      else pton6Loop rest curtok nv true groups colonp
    | none =>
      if c = ':' then
        if sawX = false then
          match colonp with
          | some _ => none
          | none => pton6Loop rest rest val false groups (some groups.length)
        else if rest = [] then none
        else if groups.length ≥ 8 then none
        else pton6Loop rest rest 0 false (groups ++ [val]) colonp
      else if c = '.' ∧ groups.length ≤ 6 then
        match pton4Loop curtok 0 false 0 [] with
        | some [o1, o2, o3, o4] => pton6End (groups ++ [o1 * 256 + o2, o3 * 256 + o4]) colonp
        | _ => none
      else none

/-- Model of `socket.inet_pton(socket.AF_INET6, s)`: the eight 16-bit groups
on success, `none` on failure. A leading `:` must begin a `::`. -/
def inet_pton6 (s : String) : Option (List Nat) :=
  match s.data with
  | ':' :: rest =>
    match rest with
    | ':' :: _ => pton6Loop rest rest 0 false [] none
    | _ => none
  | cs => pton6Loop cs cs 0 false [] none

/-- Model of `Cloudflare._is_ipv4`: truthiness of its Python return value (the packed
bytes on success, `False` on `socket.error`). -/
def is_ipv4 (ip_address : String) : Bool :=
  (inet_pton4 ip_address).isSome

/-- Model of `Cloudflare._is_ipv6`: truthiness of its Python return value. -/
def is_ipv6 (ip_address : String) : Bool :=
  (inet_pton6 ip_address).isSome

/-- Model of `Cloudflare._get_record_type`: `'A'` for IPv4, `'AAAA'` for IPv6,
`None` otherwise. -/
def get_record_type (ip_addr : String) : Option String :=
  if is_ipv4 ip_addr then some "A"
  else if is_ipv6 ip_addr then some "AAAA"
  else none

/-- Model of `Cloudflare._get_existing_rec`, applied to the provider's response to its
`GET /zones/(zone)/dns_records` query: `if 'result' in d and d['result']:
return d['result'][0]` — the first record when the `result` field is present
and a non-empty array, implicitly `None` otherwise. (The GET itself is
accounted for in `set_record`'s trace, where the call site is.) -/
def get_existing_rec (d : ListResponse DNSRec) : Option DNSRec :=
  match d.result with
  | .value (r :: _) => some r
  | _ => none

/-- Model of `Cloudflare._get_zone_id`, applied to the provider's response to its
`GET /zones?name=...` query: first zone's id, or `ValueError` when the
`result` field is falsy or missing. -/
def get_zone_id (name : String) (d : ListResponse ZoneRec) : Except String String :=
  match d.result with
  | .value (z :: _) => .ok z.id
  | _ => .error (name ++ ": No such domain")

/-- Truthiness of `os.getenv(...)` in `if not email or not token`: falsy when
the variable is unset (`None`) or set to the empty string. -/
def envTruthy : Option String → Bool
  | none => false
  | some s => s ≠ ""

/-- The part of `Cloudflare.__init__` with decision logic: check the
`CF_EMAIL` / `CF_TOKEN` environment variables (raising `EnvironmentError`
when either is falsy), then resolve the zone id via `_get_zone_id` (one
`GET /zones` call). Returns the trace of API calls issued together with
the zone id or the escaping exception's message. -/
def cloudflare_init (email token : Option String) (name : String)
    (zonesResp : ListResponse ZoneRec) : List Event × Except String String :=
  if envTruthy email = false ∨ envTruthy token = false then
    ([], .error "CF_EMAIL and CF_TOKEN envvars must be set.")
  else
    ([Event.call (ApiCall.get "/zones" [("name", name)])], get_zone_id name zonesResp)

/-- Model of `Cloudflare.set_record`: add or update a DNS record. `lookupResp` is the
provider's response to the `_get_existing_rec` query (issued only when the
record type is valid). Returns the branch taken and the trace of API calls
and log lines. -/
def set_record (zone_id name value : String) (proxy : Bool)
    (lookupResp : ListResponse DNSRec) : Action × List Event :=
  let req_path := "/zones/" ++ zone_id ++ "/dns_records"
  match get_record_type value with
  | some rt =>
    let data : RecordData :=
      { name := name, type := rt, content := value, proxied := proxy, id := none }
    let lookup := Event.call (ApiCall.get req_path [("name", name), ("type", rt)])
    match get_existing_rec lookupResp with
    | some r =>
      let rec_id := r.id
      if r.content = value ∧ r.proxied = proxy then
        (.noop, [lookup,
          .log .debug ("Record exists: " ++ name ++ " " ++ rt ++ " " ++ value ++
            " proxied:" ++ pyBool proxy ++ " id:" ++ rec_id)])
      else
        (.updated, [lookup,
          .log .info ("Updating record: " ++ name ++ " " ++ rt ++ " " ++ value ++
            " proxied:" ++ pyBool proxy ++ " id:" ++ rec_id ++ " ..."),
          .call (ApiCall.put (req_path ++ "/" ++ rec_id) { data with id := some rec_id }),
          .log .info ("Success: " ++ name ++ " " ++ rt ++ " " ++ value ++
            " proxied:" ++ pyBool proxy ++ " id:" ++ rec_id)])
    | none =>
      (.created, [lookup,
        .log .info ("Adding new record: " ++ name ++ " " ++ rt ++ " " ++ value ++
          " proxied:" ++ pyBool proxy ++ " ..."),
        .call (ApiCall.post req_path data),
        .log .info ("Success: " ++ name ++ " " ++ rt ++ " " ++ value ++
          " proxied:" ++ pyBool proxy)])
  | none =>
    (.rejected, [Event.log .error ("Getting record type failed for " ++ value)])

/-- Loop body of `Cloudflare.get_external_ips`: one service is fetched
(`fetch` models `requests.get(s).text`, with `Except.error` for a raised
exception); the body is stripped, logged, and added to the set when
non-empty, while an exception is caught and logged as an error. -/
def resolveStep (fetch : String → Except String String)
    (acc : Finset String × List Event) (s : String) : Finset String × List Event :=
  match fetch s with
  | .ok body =>
    let ip := pyStrip body
    let evs := acc.2 ++ [Event.log .debug (s ++ ": " ++ ip)]
    if ip ≠ "" then (insert ip acc.1, evs) else (acc.1, evs)
  | .error err => (acc.1, acc.2 ++ [Event.log .error (s ++ ": " ++ err)])

/-- Model of `Cloudflare.get_external_ips`: iterate over the services in order,
accumulating the set of distinct stripped non-empty bodies and the log
trace; per-service exceptions are caught inside the loop. -/
def get_external_ips (fetch : String → Except String String)
    (services : List String) : Finset String × List Event :=
  services.foldl (resolveStep fetch)
    (∅, [Event.log .debug "Getting external IP addresses ..."])

/-- The `__main__` reconciliation loop, `for ip in cf.get_external_ips(...):
cf.set_record(args.name, ip, args.proxy)`, over a given iteration order of
the resolved set. `set_record_exc ip` is `none` when the `set_record` call
returns and `some e` when it raises (e.g. `requests.HTTPError` from
`raise_for_status`); nothing in the loop catches, so a raise stops the
iteration. Returns the addresses for which `set_record` was invoked and the
escaping exception, if any. -/
def run_loop (set_record_exc : String → Option String) : List String → List String × Option String
  | [] => ([], none)
  | ip :: rest =>
    match set_record_exc ip with
    | none =>
      let r := run_loop set_record_exc rest
      (ip :: r.1, r.2)
    | some e => ([ip], some e)

/-- The `__main__` startup sequence before the loop: hostname must contain a
dot (else `ValueError` before any network activity), the domain passed to
`Cloudflare(...)` is `'.'.join(args.name.split('.')[-2:])`, and
`Cloudflare.__init__` then checks credentials and resolves the zone. -/
def main_startup (name : String) (email token : Option String)
    (zonesResp : ListResponse ZoneRec) : List Event × Except String String :=
  if pyContains name '.' then
    let parts := pySplit name '.'
    let domain := String.intercalate "." (parts.drop (parts.length - 2))
    cloudflare_init email token domain zonesResp
  else
    ([], .error (name ++ " is not a valid hostname"))

/-! ## Helper lemmas -/

/-- At most one write call appears in any `set_record` trace. -/
theorem set_record_writes_le_one (zone_id name value : String) (proxy : Bool)
    (resp : ListResponse DNSRec) :
    (writeCalls (set_record zone_id name value proxy resp).2).length ≤ 1 := by
  unfold set_record
  cases get_record_type value with
  | none => simp [writeCalls]
  | some rt =>
    cases get_existing_rec resp with
    | none => simp [writeCalls, ApiCall.isWrite]
    | some r =>
      by_cases h : r.content = value ∧ r.proxied = proxy <;>
        simp [h, writeCalls, ApiCall.isWrite]

/-- Characterisation of membership in the IP set accumulated by the
`get_external_ips` loop, for any starting accumulator. -/
theorem mem_foldl_resolveStep (fetch : String → Except String String)
    (l : List String) (acc : Finset String × List Event) (x : String) :
    x ∈ (l.foldl (resolveStep fetch) acc).1 ↔
      x ∈ acc.1 ∨ ∃ s ∈ l, ∃ body, fetch s = Except.ok body ∧
        pyStrip body = x ∧ pyStrip body ≠ "" := by
  induction l generalizing acc with
  | nil => simp
  | cons s rest ih =>
    rw [List.foldl_cons, ih]
    rw [List.exists_mem_cons_iff]
    cases hfs : fetch s with
    | ok body =>
      by_cases hb : pyStrip body = ""
      · simp [resolveStep, hfs, hb]
      · simp only [resolveStep, hfs, ne_eq, hb, not_false_iff, if_true,
          Finset.mem_insert, Except.ok.injEq]
        constructor
        · rintro (⟨h | h⟩ | h)
          · exact Or.inr (Or.inl ⟨body, rfl, h.symm, hb⟩)
          · exact Or.inl h
          · exact Or.inr (Or.inr h)
        · rintro (h | ⟨b, hbeq, htrim, -⟩ | h)
          · exact Or.inl (Or.inr h)
          · exact Or.inl (Or.inl (hbeq ▸ htrim).symm)
          · exact Or.inr h
    | error e => simp [resolveStep, hfs]

/-- The event trace only grows along the `get_external_ips` loop. -/
theorem mem_foldl_resolveStep_events (fetch : String → Except String String)
    (l : List String) (acc : Finset String × List Event) (ev : Event)
    (h : ev ∈ acc.2) : ev ∈ (l.foldl (resolveStep fetch) acc).2 := by
  induction l generalizing acc with
  | nil => exact h
  | cons s rest ih =>
    rw [List.foldl_cons]
    refine ih _ ?_
    unfold resolveStep
    cases hfs : fetch s with
    | ok body =>
      by_cases hb : pyStrip body = "" <;> simp [hb, List.mem_append, h]
    | error e => simp [List.mem_append, h]

/-- A failing endpoint leaves an error log line in the loop's trace. -/
theorem error_logged_foldl_resolveStep (fetch : String → Except String String)
    (l : List String) (acc : Finset String × List Event) (s e : String)
    (hs : s ∈ l) (hf : fetch s = Except.error e) :
    Event.log LogLevel.error (s ++ ": " ++ e) ∈ (l.foldl (resolveStep fetch) acc).2 := by
  induction l generalizing acc with
  | nil => cases hs
  | cons t rest ih =>
    rw [List.foldl_cons]
    rcases List.mem_cons.mp hs with h | h
    · subst h
      refine mem_foldl_resolveStep_events fetch rest _ _ ?_
      simp [resolveStep, hf]
    · exact ih _ h

/-! ## Claim theorems -/

/-- C4: address classification is total — for every input string
`_get_record_type` returns exactly one of `'A'`, `'AAAA'` or `None`, and
malformed strings (e.g. `"not-an-ip"`, `""`) yield `None` as a normal
outcome rather than an error. -/
theorem get_record_type_total (s : String) :
    (get_record_type s = some "A" ∨ get_record_type s = some "AAAA" ∨
      get_record_type s = none) ∧
    get_record_type "not-an-ip" = none ∧ get_record_type "" = none := by
  refine ⟨?_, by decide, by decide⟩
  unfold get_record_type
  by_cases h4 : is_ipv4 s
  · exact Or.inl (by simp [h4])
  · by_cases h6 : is_ipv6 s
    · exact Or.inr (Or.inl (by simp [h4, h6]))
    · exact Or.inr (Or.inr (by simp [h4, h6]))

/-- C8: a record lookup returns the first element of the provider's `result`
array when it is present and non-empty, and `None` when the field is
missing, null, or an empty array; absence raises nothing. -/
theorem get_existing_rec_first (d : ListResponse DNSRec) :
    (∀ r l, d.result = JField.value (r :: l) → get_existing_rec d = some r) ∧
    ((d.result = JField.missing ∨ d.result = JField.null ∨
        d.result = JField.value []) → get_existing_rec d = none) := by
  obtain ⟨res⟩ := d
  constructor
  · rintro r l h
    simp only at h
    subst h
    rfl
  · rintro (h | h | h) <;> (simp only at h; subst h; rfl)

/-- C8 witness: a non-empty result yields its first record; a null result
yields absence. -/
theorem get_existing_rec_first_witness :
    get_existing_rec ⟨JField.value [⟨"rec1", "192.0.2.1", false⟩,
        ⟨"rec2", "192.0.2.2", true⟩]⟩ = some ⟨"rec1", "192.0.2.1", false⟩ ∧
    get_existing_rec ⟨JField.null⟩ = none :=
  ⟨(get_existing_rec_first ⟨JField.value [⟨"rec1", "192.0.2.1", false⟩,
      ⟨"rec2", "192.0.2.2", true⟩]⟩).1 _ _ rfl,
   (get_existing_rec_first ⟨JField.null⟩).2 (Or.inr (Or.inl rfl))⟩

/-- C9: if either credential environment variable is unset or empty,
construction fails with the `EnvironmentError` message and issues no
network call; with both credentials present, the only startup call is the
zone lookup, performed after the check. -/
theorem cloudflare_init_credentials (email token : Option String) (name : String)
    (resp : ListResponse ZoneRec)
    (h : envTruthy email = false ∨ envTruthy token = false) :
    cloudflare_init email token name resp =
      ([], Except.error "CF_EMAIL and CF_TOKEN envvars must be set.") ∧
    (∀ e t : Option String, envTruthy e = true → envTruthy t = true →
      cloudflare_init e t name resp =
        ([Event.call (ApiCall.get "/zones" [("name", name)])],
          get_zone_id name resp)) := by
  constructor
  · unfold cloudflare_init
    rw [if_pos h]
  · intro e t he ht
    unfold cloudflare_init
    rw [if_neg]
    simp [he, ht]

/-- C9 witness: an unset token aborts construction with no API call; with
both credentials set, exactly the zone lookup is issued. -/
theorem cloudflare_init_credentials_witness :
    cloudflare_init (some "a@b.c") none "example.com" ⟨JField.missing⟩ =
      ([], Except.error "CF_EMAIL and CF_TOKEN envvars must be set.") ∧
    cloudflare_init (some "a@b.c") (some "tok") "example.com" ⟨JField.missing⟩ =
      ([Event.call (ApiCall.get "/zones" [("name", "example.com")])],
        get_zone_id "example.com" ⟨JField.missing⟩) := by
  have h := cloudflare_init_credentials (some "a@b.c") none "example.com"
    ⟨JField.missing⟩ (Or.inr rfl)
  exact ⟨h.1, h.2 (some "a@b.c") (some "tok") (by decide) (by decide)⟩

/-- C1: when a record of the derived type already exists with the same
content and the same proxied flag, `set_record` takes the NoOp branch and
issues zero provider writes (no POST, no PUT), so an unchanged IP produces
no write traffic. -/
theorem set_record_idempotent (zone_id name value : String) (proxy : Bool)
    (resp : ListResponse DNSRec) (rt : String) (r : DNSRec)
    (hrt : get_record_type value = some rt)
    (hr : get_existing_rec resp = some r)
    (hc : r.content = value) (hp : r.proxied = proxy) :
    (set_record zone_id name value proxy resp).1 = Action.noop ∧
    writeCalls (set_record zone_id name value proxy resp).2 = [] := by
  simp [set_record, hrt, hr, hc, hp, writeCalls, ApiCall.isWrite]

/-- C1 witness: an existing identical A record yields NoOp and no writes. -/
theorem set_record_idempotent_witness :
    (set_record "z1" "host.example.com" "192.0.2.1" false
        ⟨JField.value [⟨"rid1", "192.0.2.1", false⟩]⟩).1 = Action.noop ∧
    writeCalls (set_record "z1" "host.example.com" "192.0.2.1" false
        ⟨JField.value [⟨"rid1", "192.0.2.1", false⟩]⟩).2 = [] :=
  set_record_idempotent "z1" "host.example.com" "192.0.2.1" false
    ⟨JField.value [⟨"rid1", "192.0.2.1", false⟩]⟩ "A" ⟨"rid1", "192.0.2.1", false⟩
    (by decide) rfl rfl rfl

/-- C3: with a valid candidate address, no existing record leads to exactly
one POST whose payload has no identifier, and an existing record with
different content or proxied flag leads to exactly one PUT addressed by the
existing identifier and carrying the full new payload including that
identifier. -/
theorem set_record_write_branches (zone_id name value : String) (proxy : Bool)
    (resp : ListResponse DNSRec) (rt : String)
    (hrt : get_record_type value = some rt) :
    (get_existing_rec resp = none →
      (set_record zone_id name value proxy resp).1 = Action.created ∧
      writeCalls (set_record zone_id name value proxy resp).2 =
        [ApiCall.post ("/zones/" ++ zone_id ++ "/dns_records")
          { name := name, type := rt, content := value, proxied := proxy, id := none }]) ∧
    (∀ r : DNSRec, get_existing_rec resp = some r →
      ¬(r.content = value ∧ r.proxied = proxy) →
      (set_record zone_id name value proxy resp).1 = Action.updated ∧
      writeCalls (set_record zone_id name value proxy resp).2 =
        [ApiCall.put ("/zones/" ++ zone_id ++ "/dns_records" ++ "/" ++ r.id)
          { name := name, type := rt, content := value, proxied := proxy,
            id := some r.id }]) := by
  constructor
  · intro habs
    simp [set_record, hrt, habs, writeCalls, ApiCall.isWrite]
  · intro r hr hne
    simp [set_record, hrt, hr, hne, writeCalls, ApiCall.isWrite]

/-- C3 witness: no existing record gives one identifier-free POST; an
existing record with stale content gives one PUT carrying its identifier. -/
theorem set_record_write_branches_witness :
    ((set_record "z1" "host.example.com" "192.0.2.1" false ⟨JField.missing⟩).1 =
        Action.created ∧
      writeCalls (set_record "z1" "host.example.com" "192.0.2.1" false
          ⟨JField.missing⟩).2 =
        [ApiCall.post "/zones/z1/dns_records"
          { name := "host.example.com", type := "A", content := "192.0.2.1",
            proxied := false, id := none }]) ∧
    ((set_record "z1" "host.example.com" "192.0.2.1" false
        ⟨JField.value [⟨"rid9", "198.51.100.9", false⟩]⟩).1 = Action.updated ∧
      writeCalls (set_record "z1" "host.example.com" "192.0.2.1" false
          ⟨JField.value [⟨"rid9", "198.51.100.9", false⟩]⟩).2 =
        [ApiCall.put "/zones/z1/dns_records/rid9"
          { name := "host.example.com", type := "A", content := "192.0.2.1",
            proxied := false, id := some "rid9" }]) := by
  have h1 := (set_record_write_branches "z1" "host.example.com" "192.0.2.1" false
    ⟨JField.missing⟩ "A" (by decide)).1 rfl
  have h2 := (set_record_write_branches "z1" "host.example.com" "192.0.2.1" false
    ⟨JField.value [⟨"rid9", "198.51.100.9", false⟩]⟩ "A" (by decide)).2
    ⟨"rid9", "198.51.100.9", false⟩ rfl (by decide)
  refine ⟨⟨h1.1, ?_⟩, ⟨h2.1, ?_⟩⟩
  · rw [h1.2]
    decide
  · rw [h2.2]
    decide

/-- C6: a candidate that is neither valid IPv4 nor valid IPv6 is rejected
with only an error log line — no provider API call at all, neither lookup
nor write — and in every case `set_record` issues at most one write. -/
theorem set_record_invalid_rejected (zone_id name value : String) (proxy : Bool)
    (resp : ListResponse DNSRec)
    (hrt : get_record_type value = none) :
    set_record zone_id name value proxy resp =
      (Action.rejected,
        [Event.log LogLevel.error ("Getting record type failed for " ++ value)]) ∧
    (∀ v2 : String, ∀ r2 : ListResponse DNSRec,
      (writeCalls (set_record zone_id name v2 proxy r2).2).length ≤ 1) := by
  constructor
  · unfold set_record
    rw [hrt]
  · intro v2 r2
    exact set_record_writes_le_one zone_id name v2 proxy r2

/-- C6 witness: the string `"not-an-ip"` is rejected with a single error log
event and no API calls. -/
theorem set_record_invalid_rejected_witness :
    set_record "z1" "host.example.com" "not-an-ip" false ⟨JField.missing⟩ =
      (Action.rejected,
        [Event.log LogLevel.error "Getting record type failed for not-an-ip"]) :=
  (set_record_invalid_rejected "z1" "host.example.com" "not-an-ip" false
    ⟨JField.missing⟩ (by decide)).1

/-- C5: `get_external_ips` catches each endpoint's failure individually —
an address is in the result exactly when some endpoint's fetch succeeded
with that (non-empty) stripped body, independently of all other endpoints,
and duplicates collapse under set semantics; a failing endpoint only leaves
an error log line; if every endpoint fails the result is the empty set, not
an error. -/
theorem get_external_ips_fault_isolation (fetch : String → Except String String)
    (services : List String) :
    (∀ x : String, x ∈ (get_external_ips fetch services).1 ↔
      ∃ s ∈ services, ∃ body, fetch s = Except.ok body ∧
        pyStrip body = x ∧ pyStrip body ≠ "") ∧
    (∀ s ∈ services, ∀ e, fetch s = Except.error e →
      Event.log LogLevel.error (s ++ ": " ++ e) ∈ (get_external_ips fetch services).2) ∧
    ((∀ s ∈ services, ∃ e, fetch s = Except.error e) →
      (get_external_ips fetch services).1 = ∅) := by
  have hmem : ∀ x : String, x ∈ (get_external_ips fetch services).1 ↔
      ∃ s ∈ services, ∃ body, fetch s = Except.ok body ∧
        pyStrip body = x ∧ pyStrip body ≠ "" := by
    intro x
    rw [get_external_ips, mem_foldl_resolveStep]
    simp
  refine ⟨hmem, ?_, ?_⟩
  · intro s hs e he
    exact error_logged_foldl_resolveStep fetch services _ s e hs he
  · intro hall
    apply Finset.eq_empty_iff_forall_not_mem.mpr
    intro x hx
    obtain ⟨s, hs, body, hok, -, -⟩ := (hmem x).mp hx
    obtain ⟨e, he⟩ := hall s hs
    rw [hok] at he
    cases he

/-- C5 witness: with one endpoint timing out and one returning a valid body,
the result is exactly the valid address and the failure is logged. -/
theorem get_external_ips_fault_isolation_witness :
    ("203.0.113.7" ∈ (get_external_ips
        (fun s => if s = "https://a.example" then Except.error "timeout"
          else Except.ok "203.0.113.7\n")
        ["https://a.example", "https://b.example"]).1 ↔ True) ∧
    Event.log LogLevel.error "https://a.example: timeout" ∈ (get_external_ips
        (fun s => if s = "https://a.example" then Except.error "timeout"
          else Except.ok "203.0.113.7\n")
        ["https://a.example", "https://b.example"]).2 := by
  have h := get_external_ips_fault_isolation
    (fun s => if s = "https://a.example" then Except.error "timeout"
      else Except.ok "203.0.113.7\n")
    ["https://a.example", "https://b.example"]
  constructor
  · rw [h.1 "203.0.113.7"]
    simp only [iff_true]
    exact ⟨"https://b.example", by decide, "203.0.113.7\n", rfl, by decide, by decide⟩
  · exact h.2.1 "https://a.example" (by decide) "timeout" rfl

/-- C10: for an endpoint whose GET succeeds, the whitespace-trimmed body is
added to the result whenever non-empty, with no validation that it is an IP
address; such a non-IP string is only rejected later, by `set_record`'s
classification step. -/
theorem get_external_ips_no_validation (fetch : String → Except String String)
    (services : List String) (s body : String)
    (hs : s ∈ services) (hok : fetch s = Except.ok body) (hne : pyStrip body ≠ "") :
    pyStrip body ∈ (get_external_ips fetch services).1 ∧
    (∀ zone_id name : String, ∀ proxy : Bool, ∀ resp : ListResponse DNSRec,
      get_record_type (pyStrip body) = none →
      set_record zone_id name (pyStrip body) proxy resp =
        (Action.rejected,
          [Event.log LogLevel.error
            ("Getting record type failed for " ++ pyStrip body)])) := by
  constructor
  · rw [get_external_ips, mem_foldl_resolveStep]
    exact Or.inr ⟨s, hs, body, hok, rfl, hne⟩
  · intro zone_id name proxy resp hrt
    unfold set_record
    rw [hrt]

/-- C10 witness: an HTML error page body flows into the result set and is
then rejected by `set_record` with no API call. -/
theorem get_external_ips_no_validation_witness :
    "<html>502 Bad Gateway</html>" ∈ (get_external_ips
        (fun _ => Except.ok "<html>502 Bad Gateway</html>")
        ["https://api.ipify.org"]).1 ∧
    set_record "z1" "host.example.com" "<html>502 Bad Gateway</html>" false
        ⟨JField.missing⟩ =
      (Action.rejected,
        [Event.log LogLevel.error
          "Getting record type failed for <html>502 Bad Gateway</html>"]) := by
  have h := get_external_ips_no_validation
    (fun _ => Except.ok "<html>502 Bad Gateway</html>")
    ["https://api.ipify.org"] "https://api.ipify.org" "<html>502 Bad Gateway</html>"
    (by decide) rfl (by decide)
  exact ⟨h.1, h.2 "z1" "host.example.com" false ⟨JField.missing⟩ (by decide)⟩

/-- C2 counterexample: in the `__main__` loop nothing catches an exception
raised by `set_record`, so with two candidate addresses where reconciling
the first raises, the second is never attempted and the error escapes the
loop — refuting that each candidate address is processed independently. -/
theorem run_loop_abort_counterexample :
    (run_loop (fun ip => if ip = "198.51.100.1" then some "HTTPError" else none)
        ["198.51.100.1", "203.0.113.7"]).1 = ["198.51.100.1"] ∧
    "203.0.113.7" ∉ (run_loop
        (fun ip => if ip = "198.51.100.1" then some "HTTPError" else none)
        ["198.51.100.1", "203.0.113.7"]).1 ∧
    (run_loop (fun ip => if ip = "198.51.100.1" then some "HTTPError" else none)
        ["198.51.100.1", "203.0.113.7"]).2 = some "HTTPError" := by
  decide

/-- C2 as amended: an exception from one reconciliation attempt propagates
uncaught out of the orchestrator loop — the candidates before it (in
iteration order) are attempted, then the run aborts with that error and the
remaining candidates are never attempted. -/
theorem run_loop_error_propagates (f : String → Option String)
    (l1 l2 : List String) (ip e : String)
    (h1 : ∀ s ∈ l1, f s = none) (h2 : f ip = some e) :
    run_loop f (l1 ++ ip :: l2) = (l1 ++ [ip], some e) := by
  induction l1 with
  | nil => simp [run_loop, h2]
  | cons a rest ih =>
    have ha : f a = none := h1 a (List.mem_cons_self a rest)
    have := ih fun s hs => h1 s (List.mem_cons_of_mem a hs)
    simp [run_loop, ha, this]

/-- C2 amended witness: the first candidate raising stops the run; later
candidates are not reconciled. -/
theorem run_loop_error_propagates_witness :
    run_loop (fun ip => if ip = "198.51.100.8" then some "HTTPError" else none)
        ["203.0.113.7", "198.51.100.8", "192.0.2.5"] =
      (["203.0.113.7", "198.51.100.8"], some "HTTPError") :=
  run_loop_error_propagates
    (fun ip => if ip = "198.51.100.8" then some "HTTPError" else none)
    ["203.0.113.7"] ["192.0.2.5"] "198.51.100.8" "HTTPError"
    (by decide) (by decide)

/-- C7: for a hostname containing a dot, the domain handed to the provider
client (and hence to the zone lookup) is exactly the last two dot-separated
labels joined by a dot; for a dot-free hostname, startup fails with the
invalid-hostname error before any network activity. -/
theorem main_startup_domain (name : String) (email token : Option String)
    (resp : ListResponse ZoneRec)
    (hdot : pyContains name '.' = true)
    (he : envTruthy email = true) (ht : envTruthy token = true) :
    main_startup name email token resp =
      ([Event.call (ApiCall.get "/zones"
          [("name", String.intercalate "." (List.rtake (pySplit name '.') 2))])],
        get_zone_id (String.intercalate "." (List.rtake (pySplit name '.') 2)) resp) ∧
    (∀ n : String, pyContains n '.' = false →
      main_startup n email token resp =
        ([], Except.error (n ++ " is not a valid hostname"))) := by
  constructor
  · rw [main_startup, if_pos hdot]
    show cloudflare_init email token
      (String.intercalate "." ((pySplit name '.').drop ((pySplit name '.').length - 2)))
      resp = _
    rw [cloudflare_init, if_neg]
    · rfl
    · simp [he, ht]
  · intro n hn
    rw [main_startup, if_neg]
    simp [hn]

/-- C7 witness: `"sub.example.co.uk"` yields the literal last-two-label
domain `"co.uk"` in the zone lookup, and a dot-free hostname aborts with no
API call. -/
theorem main_startup_domain_witness :
    main_startup "sub.example.co.uk" (some "a@b.c") (some "tok") ⟨JField.missing⟩ =
      ([Event.call (ApiCall.get "/zones" [("name", "co.uk")])],
        get_zone_id "co.uk" ⟨JField.missing⟩) ∧
    main_startup "localhost" (some "a@b.c") (some "tok") ⟨JField.missing⟩ =
      ([], Except.error "localhost is not a valid hostname") := by
  have h := main_startup_domain "sub.example.co.uk" (some "a@b.c") (some "tok")
    ⟨JField.missing⟩ (by decide) (by decide) (by decide)
  constructor
  · rw [h.1]
    rfl
  · exact h.2 "localhost" (by decide)

end CfDdns
